import Mathlib

/-!
Verification of the WonderLens Chronicles backend (src/main.py): the
text-generation-with-fallback pattern of the mantra endpoint
(generate_mantra, lines 118-175) and the oracle endpoint (oracle, lines
200-236).  The Python string operations used by the code (str.strip,
str.split, str.join, the falsy-or idiom on optional strings) are embedded
on lists of characters; the environment visible to the code (presence of
the OPENAI_API_KEY credential, the outcome of the single outbound provider
call, the process clock, the identifier returned by the document store) is
passed explicitly.
-/

namespace WonderLens

/-- ASCII whitespace as recognised by Python str.strip() with no argument
(space, tab, newline, carriage return, vertical tab, form feed; whitespace
beyond ASCII is not modelled). -/
def pyWs (c : Char) : Bool :=
  c == ' ' || c == '\t' || c == '\n' || c == '\r' || c == '\x0b' || c == '\x0c'

/-- Remove trailing characters satisfying p (via reverse, as in the usual
definition of a right strip). -/
def dropTrail (p : Char → Bool) (l : List Char) : List Char :=
  (l.reverse.dropWhile p).reverse

/-- Remove trailing characters satisfying p, by direct structural
recursion.  Used for the spec-worded re-formulation and proved equal to
dropTrail. -/
def dropTrailRec (p : Char → Bool) : List Char → List Char
  | [] => []
  | c :: rest =>
    match dropTrailRec p rest with
    | [] => if p c then [] else [c]
    | r => c :: r

/-- Python str.strip() on a character list: whitespace removed from both
ends. -/
def pyStripL (l : List Char) : List Char :=
  dropTrail pyWs (l.dropWhile pyWs)

/-- Python s.strip() on a string. -/
def pyStrip (s : String) : String :=
  ⟨pyStripL s.data⟩

/-- The character set of the call p.strip("- •\n ") at main.py line 155:
dash, space, bullet, newline. -/
def isBulletChar (c : Char) : Bool :=
  c == '-' || c == ' ' || c == '•' || c == '\n'

/-- Python p.strip("- •\n "): characters of the set removed from both ends
of the line. -/
def stripBullet (p : List Char) : List Char :=
  dropTrail isBulletChar (p.dropWhile isBulletChar)

/-- Python msg.split("\n"): split at every newline, keeping empty pieces;
the empty input yields one empty piece. -/
def splitNl : List Char → List (List Char)
  | [] => [[]]
  | c :: rest =>
    if c = '\n' then [] :: splitNl rest
    else
      match splitNl rest with
      | [] => [[c]]
      | h :: t => (c :: h) :: t

/-- Python " ".join(xs): pieces joined by a single space. -/
def joinSpace : List (List Char) → List Char
  | [] => []
  | [x] => x
  | x :: y :: rest => x ++ ' ' :: joinSpace (y :: rest)

/-- Line 155 of main.py:
parts = [p.strip("- •\n ") for p in msg.split("\n") if p.strip()]. -/
def mantraParts (msg : List Char) : List (List Char) :=
  ((splitNl msg).filter (fun p => !(pyStripL p).isEmpty)).map stripBullet

/-- The text/meaning pair produced by mantra generation. -/
structure MantraContent where
  text : String
  meaning : String
  deriving DecidableEq

/-- Line 160: default meaning when fewer than two segments parse. -/
def defaultMeaning : String :=
  "A reminder of your inner divinity and alignment with Ashe."

/-- Line 162: text used when the provider call raises. -/
def failText : String := "I am Divine Flow. Ashe."

/-- Line 163: meaning used when the provider call raises. -/
def failMeaning : String :=
  "Return to breath and remember: your path is guided by ancestors and inner light."

/-- Line 170: meaning used in the no-credential fallback. -/
def fallbackMeaning : String :=
  "Let this guide your day with grounded presence and ancestral support."

/-- Lines 154-160 of main.py: split the (already stripped) provider
message; with at least two segments the first is the text and the rest
joined by a space are the meaning, otherwise the whole message is the text
and the meaning is the fixed default. -/
def parseProviderMantra (msg : String) : MantraContent :=
  match mantraParts msg.data with
  | p0 :: p1 :: rest => { text := ⟨p0⟩, meaning := ⟨joinSpace (p1 :: rest)⟩ }
  | _ => { text := msg, meaning := defaultMeaning }

/-- Python (x or d) on an optional string: None and the empty string are
falsy, so both select the default. -/
def pyOr (o : Option String) (d : String) : String :=
  match o with
  | none => d
  | some s => if s = "" then d else s

/-- The body of POST /api/mantra/generate (lines 118-123). -/
structure MantraRequest where
  user_id : String
  user_mood : Option String := none
  user_stage : Option String := none
  recent_journal_theme : Option String := none
  deriving DecidableEq

/-- Lines 129-133 of main.py: the prompt sent to the provider, with each
absent optional field rendered as the empty string. -/
def base_prompt (req : MantraRequest) : String :=
  "Create a daily mantra in an African spiritual tone. Inputs: mood=" ++
    pyOr req.user_mood "" ++ ", stage=" ++ pyOr req.user_stage "" ++
    ", theme=" ++ pyOr req.recent_journal_theme "" ++
    ". Output: Short mantra (1–2 lines) then a brief meaning."

/-- The ways the provider call of lines 140-153 (respectively 208-225) can
raise: network error, timeout, non-2xx status from raise_for_status,
malformed JSON, or a missing or ill-typed field in the decoded body. -/
inductive ProviderError where
  | network
  | timeout
  | badStatus
  | malformedJson
  | missingField
  deriving DecidableEq

/-- Environment of one generation request: OPENAI_API_KEY unset
(disabled), or set, with the provider call either producing the message
content string or raising an error. -/
inductive ProviderOutcome where
  | disabled
  | enabled (result : Except ProviderError String)

/-- The try-block of lines 139-160: any provider error propagates to the
except-clause, otherwise the stripped message content is parsed. -/
def mantraTry (result : Except ProviderError String) : Except ProviderError MantraContent :=
  match result with
  | .error e => .error e
  | .ok content => .ok (parseProviderMantra (pyStrip content))

/-- Line 169: the no-credential fallback text template. -/
def fallbackText (theme mood stage : String) : String :=
  "I walk in " ++ theme ++ ", breathing " ++ mood ++ ", embodying " ++ stage ++ ". Ashe."

/-- Lines 138-170 of main.py: the text and meaning produced by
generate_mantra before persistence.  With a credential, the try-block runs
and the except-clause of line 161 absorbs every error; without one, the
deterministic fallback of lines 164-170 substitutes the named defaults for
absent fields. -/
def generateMantraContent (outcome : ProviderOutcome) (req : MantraRequest) : MantraContent :=
  match outcome with
  | .enabled result =>
    match mantraTry result with
    | .ok c => c
    | .error _ => { text := failText, meaning := failMeaning }
  | .disabled =>
    { text := fallbackText (pyOr req.recent_journal_theme "clarity")
        (pyOr req.user_mood "centered") (pyOr req.user_stage "Awakening"),
      meaning := fallbackMeaning }

/-- A calendar date as held by a Python datetime.date. -/
structure Date where
  year : Nat
  month : Nat
  day : Nat
  deriving DecidableEq

/-- Left-pad a decimal string with zeros to the given width. -/
def zfill (w : Nat) (s : String) : String :=
  ⟨List.replicate (w - s.data.length) '0' ++ s.data⟩

/-- Python date.isoformat(): YYYY-MM-DD. -/
def Date.isoformat (d : Date) : String :=
  zfill 4 (Nat.repr d.year) ++ "-" ++ zfill 2 (Nat.repr d.month) ++ "-" ++
    zfill 2 (Nat.repr d.day)

/-- The clock visible to the process: date.today() (line 172) reads the
calendar day in the local timezone of the server, while
datetime.now(timezone.utc) reads the UTC day; the two differ around
midnight whenever the local timezone is not UTC. -/
structure Clock where
  localToday : Date
  utcToday : Date

/-- The JSON body returned by POST /api/mantra/generate (line 175). -/
structure MantraResponse where
  id : String
  date : String
  text : String
  meaning : String
  deriving DecidableEq

/-- Lines 126-175 of main.py: the whole endpoint.  create_document is
modelled by the identifier the document store returns (the spec's
persistence boundary: the create operation returns the identifier
synchronously).  A value Except.error would be an exception escaping to
the HTTP layer; the date attached is the local calendar day of line 172. -/
def generate_mantra (outcome : ProviderOutcome) (clock : Clock) (newId : String)
    (req : MantraRequest) : Except ProviderError MantraResponse :=
  let c := generateMantraContent outcome req
  let today := clock.localToday.isoformat
  .ok { id := newId, date := today, text := c.text, meaning := c.meaning }

/-- The body of POST /api/oracle (schemas.py OracleConsult, the two fields
read by the endpoint). -/
structure OracleConsultReq where
  user_id : Option String := none
  prompt : String
  deriving DecidableEq

/-- Interpretation and references produced by oracle generation. -/
structure OracleContent where
  interpretation : String
  references : List String
  deriving DecidableEq

/-- Line 226: references attached to a successful provider response. -/
def oracleSuccessRefs : List String :=
  ["Wikipedia: Orishas", "Wikidata: Kemet symbols"]

/-- Line 228: interpretation used when the provider call raises. -/
def oracleFailInterpretation : String :=
  "Your dream reflects a call to balance. Honor breath, pour libation (water), and affirm your worth."

/-- Line 229: references used when the provider call raises. -/
def oracleFailRefs : List String :=
  ["Proverb: A river that forgets its source will dry up."]

/-- Line 231: interpretation used in the no-credential fallback. -/
def oracleFallbackInterpretation : String :=
  "This symbol speaks of alignment. Practice heart-centered breath and offer gratitude to ancestors."

/-- Line 232: references used in the no-credential fallback. -/
def oracleFallbackRefs : List String :=
  ["Ashe (vital force)", "Ngai (divine source)"]

/-- Lines 210-213 of main.py: the prompt sent to the provider in oracle
mode. -/
def oraclePrompt (consult : OracleConsultReq) : String :=
  "Interpret this using African spiritual wisdom (Yoruba, Kikuyu, Kemet). Explain metaphysical cause and lesson. Input:\n" ++
    consult.prompt

/-- The try-block of lines 207-226: any provider error propagates to the
except-clause, otherwise the stripped message content becomes the
interpretation with the fixed success references. -/
def oracleTry (result : Except ProviderError String) : Except ProviderError OracleContent :=
  match result with
  | .error e => .error e
  | .ok content => .ok { interpretation := pyStrip content, references := oracleSuccessRefs }

/-- Lines 206-232 of main.py: interpretation and references produced by
the oracle endpoint before persistence. -/
def oracleGenContent (outcome : ProviderOutcome) (consult : OracleConsultReq) : OracleContent :=
  match outcome with
  | .enabled result =>
    match oracleTry result with
    | .ok c => c
    | .error _ =>
      { interpretation := oracleFailInterpretation, references := oracleFailRefs }
  | .disabled =>
    { interpretation := oracleFallbackInterpretation, references := oracleFallbackRefs }

/-- The JSON body returned by POST /api/oracle (line 236). -/
structure OracleResponse where
  id : String
  interpretation : String
  references : List String
  deriving DecidableEq

/-- Lines 200-236 of main.py: the whole oracle endpoint, with the store
identifier passed in as for generate_mantra. -/
def oracle (outcome : ProviderOutcome) (newId : String) (consult : OracleConsultReq) :
    Except ProviderError OracleResponse :=
  let c := oracleGenContent outcome consult
  .ok { id := newId, interpretation := c.interpretation, references := c.references }

/-- The text produced by the no-credential fallback branch of
generate_mantra, as a function of the three optional fields (the user id
does not influence it). -/
def disabledText (mood stage theme : Option String) : String :=
  (generateMantraContent .disabled
    { user_id := "u", user_mood := mood, user_stage := stage,
      recent_journal_theme := theme }).text

/-- The needle occurs as a contiguous substring of the haystack. -/
def IsSub (needle hay : String) : Prop :=
  ∃ a b : List Char, hay.data = a ++ needle.data ++ b

/-- Worded from the claim of the spec for comparison with the code: strip
surrounding whitespace but only leading bullet/dash markers from each kept
line. -/
def specLineClean (p : List Char) : List Char :=
  dropTrail pyWs (p.dropWhile (fun c => pyWs c || c == '-' || c == '•'))

/-- The parse of the provider message as the spec words it. -/
def specParseMantra (msg : String) : MantraContent :=
  match ((splitNl msg.data).filter (fun p => !(pyStripL p).isEmpty)).map specLineClean with
  | p0 :: p1 :: rest => { text := ⟨p0⟩, meaning := ⟨joinSpace (p1 :: rest)⟩ }
  | _ => { text := msg, meaning := defaultMeaning }

/-- Bullet/dash markers and whitespace stripped from both ends of each
kept line, written by direct recursion on the trailing side. -/
def specLineCleanAmended (p : List Char) : List Char :=
  dropTrailRec isBulletChar (p.dropWhile isBulletChar)

/-- The segments of the amended wording of the parse. -/
def mantraPartsAmended (msg : List Char) : List (List Char) :=
  ((splitNl msg).filter (fun p => !(pyStripL p).isEmpty)).map specLineCleanAmended

/-- The parse of the provider message as the amended wording states it:
markers and whitespace stripped from both ends of each kept line. -/
def specParseMantraAmended (msg : String) : MantraContent :=
  match mantraPartsAmended msg.data with
  | p0 :: p1 :: rest => { text := ⟨p0⟩, meaning := ⟨joinSpace (p1 :: rest)⟩ }
  | _ => { text := msg, meaning := defaultMeaning }

/-! Helper lemmas. -/

/-- The characters of an appended string are the appended character
lists. -/
theorem data_append : ∀ (s t : String), (s ++ t).data = s.data ++ t.data
  | ⟨_⟩, ⟨_⟩ => rfl

/-- A string with a non-empty right summand is non-empty. -/
theorem append_ne_empty_right : ∀ (s t : String), t ≠ "" → s ++ t ≠ ""
  | ⟨a⟩, ⟨b⟩, h, he => by
    apply h
    have h2 : a ++ b = [] := congrArg String.data he
    exact congrArg String.mk (List.append_eq_nil.mp h2).2

/-- The fallback mantra text is never empty, whatever is substituted. -/
theorem fallbackText_ne_empty (theme mood stage : String) :
    fallbackText theme mood stage ≠ "" :=
  append_ne_empty_right _ _ (by decide)

/-- The empty string is a substring of everything. -/
theorem isSub_empty (h : String) : IsSub "" h :=
  ⟨[], h.data, rfl⟩

/-- The theme slot occurs in the fallback text. -/
theorem isSub_theme (theme mood stage : String) :
    IsSub theme (fallbackText theme mood stage) := by
  refine ⟨"I walk in ".data,
    (", breathing " ++ mood ++ ", embodying " ++ stage ++ ". Ashe.").data, ?_⟩
  simp [fallbackText, data_append, List.append_assoc]

/-- The mood slot occurs in the fallback text. -/
theorem isSub_mood (theme mood stage : String) :
    IsSub mood (fallbackText theme mood stage) := by
  refine ⟨("I walk in " ++ theme ++ ", breathing ").data,
    (", embodying " ++ stage ++ ". Ashe.").data, ?_⟩
  simp [fallbackText, data_append, List.append_assoc]

/-- The stage slot occurs in the fallback text. -/
theorem isSub_stage (theme mood stage : String) :
    IsSub stage (fallbackText theme mood stage) := by
  refine ⟨("I walk in " ++ theme ++ ", breathing " ++ mood ++ ", embodying ").data,
    ". Ashe.".data, ?_⟩
  simp [fallbackText, data_append, List.append_assoc]

/-- The structurally recursive right strip agrees with the reverse-based
one. -/
theorem dropTrailRec_eq (p : Char → Bool) (l : List Char) :
    dropTrailRec p l = dropTrail p l := by
  induction l with
  | nil => rfl
  | cons c rest ih =>
    unfold dropTrailRec dropTrail
    rw [List.reverse_cons, List.dropWhile_append]
    rcases hd : rest.reverse.dropWhile p with _ | ⟨y, ys⟩
    · have hrec : dropTrailRec p rest = [] := by
        rw [ih]
        unfold dropTrail
        rw [hd]
        rfl
      rw [hrec]
      by_cases hc : p c <;> simp [List.dropWhile, hc]
    · have hy : dropTrailRec p rest = (y :: ys).reverse := by
        rw [ih]
        unfold dropTrail
        rw [hd]
      simp only [List.isEmpty_cons, if_false, Bool.false_eq_true]
      rcases hx : dropTrailRec p rest with _ | ⟨x, xs⟩
      · have h0 := congrArg List.reverse (hy.symm.trans hx)
        simp at h0
      · rw [List.reverse_append]
        rw [← hy, hx]
        simp

/-! Claim theorems. -/

/-- Claim C5: for every mantra or oracle request and every provider
outcome, including every kind of provider-call error (network error,
timeout, non-success status, malformed JSON, missing field), the endpoint
functions return normally (never an escaping exception) with a response
holding exactly the generated content, so the HTTP caller always receives
a 200 response with generated content. -/
theorem c5_endpoints_never_fail (outcome : ProviderOutcome) (clock : Clock)
    (newId : String) (req : MantraRequest) (consult : OracleConsultReq) :
    generate_mantra outcome clock newId req =
      Except.ok { id := newId, date := clock.localToday.isoformat,
                  text := (generateMantraContent outcome req).text,
                  meaning := (generateMantraContent outcome req).meaning } ∧
    oracle outcome newId consult =
      Except.ok { id := newId,
                  interpretation := (oracleGenContent outcome consult).interpretation,
                  references := (oracleGenContent outcome consult).references } :=
  ⟨rfl, rfl⟩

/-- Claim C6: with the provider disabled and mood "centered", stage
"Awakening", theme "clarity", the generated text is the templated sentence
and the meaning is the fixed encouragement sentence of line 170. -/
theorem c6_scenario_mantra_disabled :
    (generateMantraContent .disabled
      { user_id := "u1", user_mood := some "centered",
        user_stage := some "Awakening",
        recent_journal_theme := some "clarity" }).text =
      "I walk in clarity, breathing centered, embodying Awakening. Ashe." ∧
    (generateMantraContent .disabled
      { user_id := "u1", user_mood := some "centered",
        user_stage := some "Awakening",
        recent_journal_theme := some "clarity" }).meaning =
      "Let this guide your day with grounded presence and ancestral support." :=
  ⟨rfl, rfl⟩

/-- Claim C7: with the provider disabled, the oracle consult for the
prompt about a river returns the fixed templated interpretation of line
231 and exactly the fixed non-empty reference list of line 232. -/
theorem c7_scenario_oracle_disabled :
    oracle .disabled "c1" { prompt := "I dreamed of a river" } =
      Except.ok { id := "c1",
                  interpretation :=
                    "This symbol speaks of alignment. Practice heart-centered breath and offer gratitude to ancestors.",
                  references := ["Ashe (vital force)", "Ngai (divine source)"] } ∧
    oracleFallbackRefs ≠ [] :=
  ⟨rfl, by decide⟩

/-- Claim C9: with the provider disabled, two generations whose requests
agree on the content-relevant fields produce identical text and meaning,
and two oracle consults produce identical interpretation and references,
whatever the identifiers or prompts (the disabled oracle content is a
constant). -/
theorem c9_disabled_deterministic (r1 r2 : MantraRequest) (o1 o2 : OracleConsultReq)
    (hm : r1.user_mood = r2.user_mood) (hs : r1.user_stage = r2.user_stage)
    (ht : r1.recent_journal_theme = r2.recent_journal_theme) :
    generateMantraContent .disabled r1 = generateMantraContent .disabled r2 ∧
    oracleGenContent .disabled o1 = oracleGenContent .disabled o2 := by
  constructor
  · simp only [generateMantraContent, hm, hs, ht]
  · rfl

/-- Claim C9 witness: identical optional fields with different user ids
and prompts give identical disabled-mode content. -/
theorem c9_disabled_deterministic_witness :
    generateMantraContent .disabled { user_id := "a", user_mood := some "calm" } =
      generateMantraContent .disabled { user_id := "b", user_mood := some "calm" } ∧
    oracleGenContent .disabled { prompt := "a dream" } =
      oracleGenContent .disabled { prompt := "another dream" } :=
  c9_disabled_deterministic _ _ _ _ rfl rfl rfl

/-- Claim C10: with a credential configured, absent optional fields are
embedded into the provider prompt as empty strings; the prompt with all
fields absent differs from the prompt with the named defaults filled in,
and those defaults appear only in the no-credential fallback text. -/
theorem c10_prompt_empty_fields (uid : String) :
    base_prompt { user_id := uid } =
      "Create a daily mantra in an African spiritual tone. Inputs: mood=, stage=, theme=. Output: Short mantra (1–2 lines) then a brief meaning." ∧
    base_prompt { user_id := uid } ≠
      base_prompt { user_id := uid, user_mood := some "centered",
                    user_stage := some "Awakening",
                    recent_journal_theme := some "clarity" } ∧
    (generateMantraContent .disabled { user_id := uid }).text =
      "I walk in clarity, breathing centered, embodying Awakening. Ashe." := by
  refine ⟨rfl, fun h => ?_, rfl⟩
  have h2 : ("Create a daily mantra in an African spiritual tone. Inputs: mood=, stage=, theme=. Output: Short mantra (1–2 lines) then a brief meaning." : String) =
      "Create a daily mantra in an African spiritual tone. Inputs: mood=centered, stage=Awakening, theme=clarity. Output: Short mantra (1–2 lines) then a brief meaning." := h
  exact absurd h2 (by decide)

/-- Claim C1 counterexample: when the provider succeeds with the message
of two bullet-only lines, the mantra generation completes with empty text
and empty meaning, refuting non-emptiness for every provider outcome. -/
theorem c1_counterexample :
    ¬ (∀ (outcome : ProviderOutcome) (req : MantraRequest),
        (generateMantraContent outcome req).text ≠ "" ∧
        (generateMantraContent outcome req).meaning ≠ "") := by
  intro h
  exact (h (.enabled (.ok "-\n•")) { user_id := "u1" }).1 (by decide)

/-- Claim C1 (amended): generation always completes, and with the provider
disabled or failing the mantra text and meaning and the oracle
interpretation are non-empty; for every outcome the oracle references is a
defined list, one of the three fixed lists of the code. -/
theorem c1_amended_nonempty (req : MantraRequest) (consult : OracleConsultReq)
    (e : ProviderError) :
    (generateMantraContent .disabled req).text ≠ "" ∧
    (generateMantraContent .disabled req).meaning ≠ "" ∧
    (generateMantraContent (.enabled (.error e)) req).text ≠ "" ∧
    (generateMantraContent (.enabled (.error e)) req).meaning ≠ "" ∧
    (oracleGenContent .disabled consult).interpretation ≠ "" ∧
    (oracleGenContent (.enabled (.error e)) consult).interpretation ≠ "" ∧
    ∀ outcome : ProviderOutcome,
      (oracleGenContent outcome consult).references = oracleSuccessRefs ∨
      (oracleGenContent outcome consult).references = oracleFailRefs ∨
      (oracleGenContent outcome consult).references = oracleFallbackRefs := by
  refine ⟨fallbackText_ne_empty _ _ _,
    fun h => absurd (show fallbackMeaning = "" from h) (by decide),
    fun h => absurd (show failText = "" from h) (by decide),
    fun h => absurd (show failMeaning = "" from h) (by decide),
    fun h => absurd (show oracleFallbackInterpretation = "" from h) (by decide),
    fun h => absurd (show oracleFailInterpretation = "" from h) (by decide),
    ?_⟩
  intro outcome
  cases outcome with
  | disabled => exact Or.inr (Or.inr rfl)
  | enabled r =>
    cases r with
    | error e => exact Or.inr (Or.inl rfl)
    | ok content => exact Or.inl rfl

/-- Claim C2 counterexample: at a concrete request, the provider-failure
content differs from the provider-disabled content, for the mantra and for
the oracle, refuting that failure routes to the same fallback as
disabled. -/
theorem c2_counterexample :
    ¬ (∀ (req : MantraRequest) (consult : OracleConsultReq) (e : ProviderError),
        generateMantraContent (.enabled (.error e)) req =
          generateMantraContent .disabled req ∧
        oracleGenContent (.enabled (.error e)) consult =
          oracleGenContent .disabled consult) := by
  intro h
  exact absurd
    (h { user_id := "u1" } { prompt := "I dreamed of a river" } .timeout).1
    (by decide)

/-- Claim C2 (amended): every kind of provider failure is absorbed and
yields one fixed deterministic fallback, independent of the request and of
the failure kind, but that content is distinct from the provider-disabled
fallback content. -/
theorem c2_amended_failure_fallback (req : MantraRequest)
    (consult : OracleConsultReq) (e : ProviderError) :
    generateMantraContent (.enabled (.error e)) req =
      { text := failText, meaning := failMeaning } ∧
    oracleGenContent (.enabled (.error e)) consult =
      { interpretation := oracleFailInterpretation,
        references := oracleFailRefs } ∧
    generateMantraContent (.enabled (.error e)) req ≠
      generateMantraContent .disabled req ∧
    oracleGenContent (.enabled (.error e)) consult ≠
      oracleGenContent .disabled consult := by
  refine ⟨rfl, rfl, fun h => ?_, fun h => ?_⟩
  · exact absurd (show failMeaning = fallbackMeaning from
      congrArg MantraContent.meaning h) (by decide)
  · exact absurd (show oracleFailRefs = oracleFallbackRefs from
      congrArg OracleContent.references h) (by decide)

/-- Claim C3 counterexample: on a message whose first line ends in a dash,
the code (which strips the marker characters from both ends of a line)
produces a different text than the wording of the claim (markers stripped
only at the start of a line): the code drops the trailing dash. -/
theorem c3_counterexample :
    ¬ (∀ msg : String, parseProviderMantra msg = specParseMantra msg) := by
  intro h
  exact absurd (congrArg MantraContent.text (h "Flow like water -\nBe still"))
    (by decide)

/-- Claim C3 (amended): the parse splits on newlines, keeps the lines with
non-whitespace content, strips bullet/dash markers and whitespace from
both ends of each kept line, and then takes the first segment as text and
the rest joined by single spaces as meaning when at least two segments
result, or the whole message as text with the fixed default meaning
otherwise. -/
theorem c3_amended_parse (msg : String) :
    parseProviderMantra msg = specParseMantraAmended msg := by
  have hf : specLineCleanAmended = stripBullet := by
    funext p
    unfold specLineCleanAmended stripBullet
    exact dropTrailRec_eq isBulletChar (p.dropWhile isBulletChar)
  unfold parseProviderMantra specParseMantraAmended mantraPartsAmended mantraParts
  rw [hf]

/-- Claim C4 counterexample: with the local calendar day behind the UTC
day (a server west of Greenwich before local midnight), the date attached
by generate_mantra is the local day, not the UTC day. -/
theorem c4_counterexample :
    ¬ (∀ (outcome : ProviderOutcome) (clock : Clock) (newId : String)
          (req : MantraRequest),
        (generate_mantra outcome clock newId req).map MantraResponse.date =
          Except.ok clock.utcToday.isoformat) := by
  intro h
  have h2 := h .disabled
    { localToday := ⟨2026, 10, 12⟩, utcToday := ⟨2026, 10, 13⟩ } "m1"
    { user_id := "u1" }
  have h3 : (Except.ok (Date.isoformat ⟨2026, 10, 12⟩) :
      Except ProviderError String) = Except.ok (Date.isoformat ⟨2026, 10, 13⟩) := h2
  injection h3 with h4
  exact absurd h4 (by decide)

/-- Claim C4 (amended): the date field attached to the mantra result is
the generation day in the local timezone of the server, formatted as an
ISO-8601 calendar date; it equals the UTC day exactly when the local and
UTC calendar days coincide. -/
theorem c4_amended_local_date (outcome : ProviderOutcome) (clock : Clock)
    (newId : String) (req : MantraRequest) :
    (generate_mantra outcome clock newId req).map MantraResponse.date =
      Except.ok clock.localToday.isoformat ∧
    (clock.localToday = clock.utcToday →
      (generate_mantra outcome clock newId req).map MantraResponse.date =
        Except.ok clock.utcToday.isoformat) := by
  refine ⟨rfl, fun h => ?_⟩
  rw [← h]
  rfl

/-- Claim C4 witness: on a clock whose local and UTC days coincide, the
attached date equals the UTC day. -/
theorem c4_amended_local_date_witness :
    (generate_mantra .disabled
      { localToday := ⟨2026, 10, 12⟩, utcToday := ⟨2026, 10, 12⟩ } "m1"
      { user_id := "u1" }).map MantraResponse.date =
      Except.ok (Date.isoformat ⟨2026, 10, 12⟩) :=
  (c4_amended_local_date .disabled
    { localToday := ⟨2026, 10, 12⟩, utcToday := ⟨2026, 10, 12⟩ } "m1"
    { user_id := "u1" }).2 rfl

/-- Claim C8: with the provider disabled, the generated text contains
every supplied optional field as a substring, and for each absent field
the named default (centered, Awakening, clarity) is substituted and so
occurs in the text. -/
theorem c8_fallback_substrings (mood stage theme : Option String) :
    (∀ v, mood = some v → IsSub v (disabledText mood stage theme)) ∧
    (∀ v, stage = some v → IsSub v (disabledText mood stage theme)) ∧
    (∀ v, theme = some v → IsSub v (disabledText mood stage theme)) ∧
    (mood = none → IsSub "centered" (disabledText mood stage theme)) ∧
    (stage = none → IsSub "Awakening" (disabledText mood stage theme)) ∧
    (theme = none → IsSub "clarity" (disabledText mood stage theme)) := by
  refine ⟨?_, ?_, ?_, ?_, ?_, ?_⟩
  · intro v hv
    subst hv
    by_cases hv0 : v = ""
    · subst hv0
      exact isSub_empty _
    · show IsSub v (fallbackText (pyOr theme "clarity") (pyOr (some v) "centered")
        (pyOr stage "Awakening"))
      rw [show pyOr (some v) "centered" = v from by simp [pyOr, hv0]]
      exact isSub_mood _ _ _
  · intro v hv
    subst hv
    by_cases hv0 : v = ""
    · subst hv0
      exact isSub_empty _
    · show IsSub v (fallbackText (pyOr theme "clarity") (pyOr mood "centered")
        (pyOr (some v) "Awakening"))
      rw [show pyOr (some v) "Awakening" = v from by simp [pyOr, hv0]]
      exact isSub_stage _ _ _
  · intro v hv
    subst hv
    by_cases hv0 : v = ""
    · subst hv0
      exact isSub_empty _
    · show IsSub v (fallbackText (pyOr (some v) "clarity") (pyOr mood "centered")
        (pyOr stage "Awakening"))
      rw [show pyOr (some v) "clarity" = v from by simp [pyOr, hv0]]
      exact isSub_theme _ _ _
  · intro hv
    subst hv
    exact isSub_mood (pyOr theme "clarity") "centered" (pyOr stage "Awakening")
  · intro hv
    subst hv
    exact isSub_stage (pyOr theme "clarity") (pyOr mood "centered") "Awakening"
  · intro hv
    subst hv
    exact isSub_theme "clarity" (pyOr mood "centered") (pyOr stage "Awakening")

/-- Claim C8 witness: concrete supplied mood and theme occur in the
fallback text and the absent stage falls back to Awakening. -/
theorem c8_fallback_substrings_witness :
    IsSub "joyful" (disabledText (some "joyful") none (some "rivers")) ∧
    IsSub "Awakening" (disabledText (some "joyful") none (some "rivers")) ∧
    IsSub "rivers" (disabledText (some "joyful") none (some "rivers")) := by
  have h := c8_fallback_substrings (some "joyful") none (some "rivers")
  exact ⟨h.1 "joyful" rfl, h.2.2.2.2.1 rfl, h.2.2.1 "rivers" rfl⟩

end WonderLens
